import Mathlib

/-!
Shallow embedding of the two command-line utilities of the repository:

* `src/deployment/as_deploy.py` — the agent-linking tool (flag parsing aside):
  `discovery_engine_url`, `get_gcloud_access_token`, `link_agent_to_agentspace`,
  `list_as_agents`, `delete_as_agent`, `main`.
* `src/weather_agent/deployment/test_deploy.py` — the interactive remote tester:
  `run_remote`.

Python strings that may be `None` are modelled as `Option String`; Python's
truthiness test on such a value is `truthy`; interpolating such a value into an
f-string is `pyStr` (Python renders `None` as the literal string "None").

Outbound I/O is made explicit: the ambient credential store is a `CredResult`
argument, the single HTTP call of each directory action is an `HttpOutcome`
argument, and each run returns its printed log, the list of outbound effects it
issued, and how control left the function (normal return, `exit(code)`, or an
uncaught raised error).
-/

namespace ASDeploy

/-- Python truthiness of an optional string: `None` and `""` are falsy. -/
def truthy : Option String → Bool
  | some s => !(s == "")
  | none => false

/-- Python f-string rendering of an optional string: `None` prints as "None". -/
def pyStr : Option String → String
  | some s => s
  | none => "None"

/-- Minimal JSON value tree, for request payloads and response bodies. -/
inductive Json where
  | null
  | bool (b : Bool)
  | num (n : Int)
  | str (s : String)
  | arr (elems : List Json)
  | obj (fields : List (String × Json))

/-- Python `d.get(key, dflt)` on a JSON value (a non-dict yields the default;
the source only applies it to parsed response bodies, which are dicts). -/
def jsonGetD (j : Json) (key : String) (dflt : Json) : Json :=
  match j with
  | .obj fields =>
    match fields.lookup key with
    | some v => v
    | none => dflt
  | _ => dflt

/-- One printed line. `jsonDump` is `print(json.dumps(body, indent=2))`;
`fstr` is `print(f"<prefix>{value}")` for a JSON value whose exact Python
string rendering we do not reproduce; `fcall` is the function-call report
`print(f"Called function {name} with args {args}")`. -/
inductive LogLine where
  | text (s : String)
  | jsonDump (j : Json)
  | fstr (s : String) (j : Json)
  | fcall (name : Json) (args : Json)

/-- Outbound effects of a run: one credential refresh per
`get_gcloud_access_token` call, and one effect per HTTP request issued. -/
inductive Effect where
  | credentialRefresh
  | httpPost (url : String) (headers : List (String × Option String)) (payload : Json)
  | httpGet (url : String) (headers : List (String × Option String))
  | httpDelete (url : String) (headers : List (String × Option String))

/-- Whether an effect is a network (HTTP) call. -/
def isHttpCall : Effect → Bool
  | .credentialRefresh => false
  | .httpPost _ _ _ => true
  | .httpGet _ _ => true
  | .httpDelete _ _ => true

/-- How control left a function: a normal return, `exit(code)`, or an
uncaught raised exception carrying its message. -/
inductive Outcome where
  | returned
  | exited (code : Nat)
  | raised (msg : String)
deriving DecidableEq

/-- What the ambient default-credential provider does when asked for a token:
it yields a token value (`credentials.token`, possibly `None`), or the
resolution raises with some message. -/
inductive CredResult where
  | ok (token : Option String)
  | err (msg : String)

/-- Fate of the single HTTP request of a directory action: a parsed JSON
response body on success, or the `requests` exception that the call (or
`raise_for_status`) raised — an HTTP 4xx/5xx status error (with the raw
response text), a connection error, a timeout, or any other request error. -/
inductive HttpOutcome where
  | success (body : Json)
  | httpError (msg : String) (respText : String)
  | connError (msg : String)
  | timeoutError (msg : String)
  | otherError (msg : String)

/-- The command-line flags of `as_deploy.py` (absl flags). -/
structure Flags where
  as_project_id : Option String
  ae_project_id : Option String
  location : Option String
  company_name : String
  list : Bool
  link : Bool
  delete : Bool
  resource_id : Option String
  as_agent_id : Option String

/-- The environment variables the two scripts read. -/
structure Env where
  AS_GOOGLE_CLOUD_PROJECT : Option String
  AGENT_SPACE_APP_ID : Option String
  AGENT_SPACE_LOCATION : Option String
  GOOGLE_CLOUD_PROJECT : Option String
  GOOGLE_CLOUD_LOCATION : Option String

/-- `USE_CASE_NAME = "weather-agent-1"`. -/
def USE_CASE_NAME : String := "weather-agent-1"

/-- The AgentSpace project id as resolved at the top of
`discovery_engine_url`: `FLAGS.as_project_id if FLAGS.as_project_id else
os.getenv("AS_GOOGLE_CLOUD_PROJECT")`. -/
def as_project_resolved (flags : Flags) (env : Env) : Option String :=
  if truthy flags.as_project_id then flags.as_project_id
  else env.AS_GOOGLE_CLOUD_PROJECT

/-- `discovery_engine_url` of `as_deploy.py` (lines 54-72): builds the base
URL for AgentSpace (Discovery Engine) API calls. The project id is flag-first
with environment fallback; the app id and the location are read from the
environment only; a non-"global" location (including an unset one, rendered
"None") prefixes the hostname. -/
def discovery_engine_url (flags : Flags) (env : Env) : String :=
  let project_id := as_project_resolved flags env
  let agentspace_app_id := env.AGENT_SPACE_APP_ID
  let as_location_id := env.AGENT_SPACE_LOCATION
  let hostname := "discoveryengine.googleapis.com"
  let hostname := if as_location_id ≠ some ("global")
    then pyStr as_location_id ++ "-" ++ hostname else hostname
  "https://" ++ hostname ++ "/v1alpha/projects/" ++ pyStr project_id ++
    "/locations/" ++ pyStr as_location_id ++
    "/collections/default_collection/engines/" ++ pyStr agentspace_app_id ++
    "/assistants/default_assistant/agents"

/-- Result of one `get_gcloud_access_token()` call: the lines it printed and
either the token value or the `exit` code it terminated the process with. -/
structure TokenRun where
  log : List LogLine
  result : Except Nat (Option String)

/-- `get_gcloud_access_token` of `as_deploy.py` (lines 40-51): on any
credential-resolution error it prints the error, prints the remediation
guidance, and calls `exit(1)`; otherwise it returns `credentials.token`. -/
def get_gcloud_access_token (cred : CredResult) : TokenRun :=
  match cred with
  | .ok token => { log := [], result := .ok token }
  | .err e =>
    { log := [.text ("Error getting access token: " ++ e),
              .text ("Please ensure you are authenticated with \x27gcloud auth application-default login\x27")],
      result := .error 1 }

/-- A whole run of one directory action (or of `main`). -/
structure ActionRun where
  log : List LogLine
  effects : List Effect
  outcome : Outcome

/-- The request headers dict shared by the three directory actions. The
`X-Goog-User-Project` value is the raw configured project (possibly `None`). -/
def mkHeaders (auth : String) (proj : Option String) : List (String × Option String) :=
  [("Authorization", some auth),
   ("Content-Type", some ("application/json")),
   ("X-Goog-User-Project", proj)]

/-- `link_agent_to_agentspace` of `as_deploy.py` (lines 75-131): builds the
URL and payload, fetches a token, issues one POST, and catches every
`requests` error category inside the function. -/
def link_agent_to_agentspace (flags : Flags) (env : Env) (agent_engine_id : String)
    (cred : CredResult) (http : HttpOutcome) : ActionRun :=
  let as_project_id := env.AS_GOOGLE_CLOUD_PROJECT
  let ae_project_id := env.GOOGLE_CLOUD_PROJECT
  let ae_location_id := if truthy flags.location then flags.location
    else env.GOOGLE_CLOUD_LOCATION
  let url := discovery_engine_url flags env
  let tok := get_gcloud_access_token cred
  match tok.result with
  | .error code => { log := tok.log, effects := [.credentialRefresh], outcome := .exited code }
  | .ok access_token =>
    if truthy access_token then
      let headers := mkHeaders ("Bearer " ++ pyStr access_token) as_project_id
      let ae_url := "projects/" ++ pyStr ae_project_id ++ "/locations/" ++
        pyStr ae_location_id ++ "/reasoningEngines/" ++ agent_engine_id
      let payload : Json := .obj
        [("displayName", .str USE_CASE_NAME),
         ("description", .str ("Weather agent that provides weather information for " ++
            flags.company_name ++ ".")),
         ("adk_agent_definition", .obj
           [("tool_settings", .obj
             [("tool_description", .str ("This agent provides weather information for a given location."))]),
            ("provisioned_reasoning_engine", .obj
             [("reasoning_engine", .str ae_url)])])]
      let effects := [Effect.credentialRefresh, Effect.httpPost url headers payload]
      match http with
      | .success body =>
        { log := tok.log ++ [.text ("\nAPI Response:"), .jsonDump body,
            .fstr ("\nSuccessfully created agent: ") (jsonGetD body ("name") (.str ("N/A")))],
          effects := effects, outcome := .returned }
      | .httpError msg respText =>
        { log := tok.log ++ [.text ("HTTP error occurred: " ++ msg),
            .text ("Response Content: " ++ respText)],
          effects := effects, outcome := .returned }
      | .connError msg =>
        { log := tok.log ++ [.text ("Connection error occurred: " ++ msg)],
          effects := effects, outcome := .returned }
      | .timeoutError msg =>
        { log := tok.log ++ [.text ("Timeout error occurred: " ++ msg)],
          effects := effects, outcome := .returned }
      | .otherError msg =>
        { log := tok.log ++ [.text ("An error occurred: " ++ msg)],
          effects := effects, outcome := .returned }
    else { log := tok.log, effects := [.credentialRefresh],
           outcome := .raised ("Authentication failed") }

/-- `list_as_agents` of `as_deploy.py` (lines 134-172): one GET against the
base URL with the same header shape and the same error handling. -/
def list_as_agents (flags : Flags) (env : Env)
    (cred : CredResult) (http : HttpOutcome) : ActionRun :=
  let project_id := as_project_resolved flags env
  let url := discovery_engine_url flags env
  let tok := get_gcloud_access_token cred
  match tok.result with
  | .error code => { log := tok.log, effects := [.credentialRefresh], outcome := .exited code }
  | .ok access_token =>
    if truthy access_token then
      let headers := mkHeaders ("Bearer " ++ pyStr access_token) project_id
      let effects := [Effect.credentialRefresh, Effect.httpGet url headers]
      match http with
      | .success body =>
        { log := tok.log ++ [.text ("\nAPI Response:"), .jsonDump body],
          effects := effects, outcome := .returned }
      | .httpError msg respText =>
        { log := tok.log ++ [.text ("HTTP error occurred: " ++ msg),
            .text ("Response Content: " ++ respText)],
          effects := effects, outcome := .returned }
      | .connError msg =>
        { log := tok.log ++ [.text ("Connection error occurred: " ++ msg)],
          effects := effects, outcome := .returned }
      | .timeoutError msg =>
        { log := tok.log ++ [.text ("Timeout error occurred: " ++ msg)],
          effects := effects, outcome := .returned }
      | .otherError msg =>
        { log := tok.log ++ [.text ("An error occurred: " ++ msg)],
          effects := effects, outcome := .returned }
    else { log := tok.log, effects := [.credentialRefresh],
           outcome := .raised ("Authentication failed") }

/-- Python `os.path.join(a, b)` restricted to the way the source uses it:
an absolute second component replaces the first, otherwise the two parts are
joined with exactly one "/" between them. -/
def os_path_join (a b : String) : String :=
  if b.startsWith ("/") then b
  else if a == "" then b
  else if a.endsWith ("/") then a ++ b
  else a ++ "/" ++ b

/-- `delete_as_agent` of `as_deploy.py` (lines 175-216): one DELETE against
the base URL joined with the given AgentSpace agent id, same headers, same
error handling. -/
def delete_as_agent (flags : Flags) (env : Env) (as_agent_id : String)
    (cred : CredResult) (http : HttpOutcome) : ActionRun :=
  let project_id := as_project_resolved flags env
  let url := discovery_engine_url flags env
  let agent_url := os_path_join url as_agent_id
  let tok := get_gcloud_access_token cred
  match tok.result with
  | .error code => { log := tok.log, effects := [.credentialRefresh], outcome := .exited code }
  | .ok access_token =>
    if truthy access_token then
      let headers := mkHeaders ("Bearer " ++ pyStr access_token) project_id
      let effects := [Effect.credentialRefresh, Effect.httpDelete agent_url headers]
      match http with
      | .success body =>
        { log := tok.log ++ [.text ("\nAPI Response:"), .jsonDump body,
            .fstr ("\nSuccessfully deleted agent: ") (jsonGetD body ("name") (.str ("N/A")))],
          effects := effects, outcome := .returned }
      | .httpError msg respText =>
        { log := tok.log ++ [.text ("HTTP error occurred: " ++ msg),
            .text ("Response Content: " ++ respText)],
          effects := effects, outcome := .returned }
      | .connError msg =>
        { log := tok.log ++ [.text ("Connection error occurred: " ++ msg)],
          effects := effects, outcome := .returned }
      | .timeoutError msg =>
        { log := tok.log ++ [.text ("Timeout error occurred: " ++ msg)],
          effects := effects, outcome := .returned }
      | .otherError msg =>
        { log := tok.log ++ [.text ("An error occurred: " ++ msg)],
          effects := effects, outcome := .returned }
    else { log := tok.log, effects := [.credentialRefresh],
           outcome := .raised ("Authentication failed") }

/-- The `ValueError` message `main` raises when no mode combination is set. -/
def mainErrMsg : String :=
  "Execution mode must be deploy, list or delete. If deploy, a resource-id must be provided"

/-- `main` of `as_deploy.py` (lines 219-230): the `if / elif / elif / else`
dispatch over the mode flags. -/
def main (flags : Flags) (env : Env) (cred : CredResult) (http : HttpOutcome) : ActionRun :=
  if flags.link && truthy flags.resource_id then
    link_agent_to_agentspace flags env (pyStr flags.resource_id) cred http
  else if flags.list then
    list_as_agents flags env cred http
  else if flags.delete && truthy flags.as_agent_id then
    delete_as_agent flags env (pyStr flags.as_agent_id) cred http
  else
    { log := [], effects := [], outcome := .raised mainErrMsg }

/-- Membership test `k in d` for a Python dict modelled as a field list. -/
def dictHas (d : List (String × Json)) (k : String) : Bool :=
  d.any (fun p => p.1 == k)

/-- Dict lookup `d[k]`, used only under a `dictHas` guard. -/
def dictGet (d : List (String × Json)) (k : String) : Json :=
  match d.lookup k with
  | some v => v
  | none => .null

/-- The `for part in parts:` body of the interactive loop: for each part that
is a dict, print the "Response: " line when it has a "text" key; a part that
is not a dict would make Python's `"text" in part` raise `TypeError` (the
model also treats a non-dict `in` operand as a raise, conservatively). -/
def partsLog : List Json → Except String (List LogLine)
  | [] => .ok []
  | p :: ps =>
    match p with
    | .obj pf =>
      let here := if dictHas pf ("text")
        then [LogLine.fstr ("Response: ") (dictGet pf ("text"))] else []
      match partsLog ps with
      | .ok rest => .ok (here ++ rest)
      | .error m => .error m
    | _ => .error ("TypeError")

/-- Printing of one streamed event in the interactive loop: `print(event)`,
then the text-part extraction, then the function-call report. Paths where
Python would raise (`in` on a non-dict, iterating a non-list `parts`,
subscripting a missing `name`/`args`) return an error. -/
def eventLogE (ev : Json) : Except String (List LogLine) :=
  match ev with
  | .obj fields =>
    let head := [LogLine.jsonDump ev]
    let contentPart : Except String (List LogLine) :=
      if dictHas fields ("content") then
        match dictGet fields ("content") with
        | .obj cfields =>
          if dictHas cfields ("parts") then
            match dictGet cfields ("parts") with
            | .arr parts => partsLog parts
            | _ => .error ("TypeError")
          else .ok []
        | _ => .error ("TypeError")
      else .ok []
    let fcPart : Except String (List LogLine) :=
      if dictHas fields ("function_call") then
        match dictGet fields ("function_call") with
        | .obj ffields =>
          match ffields.lookup ("name"), ffields.lookup ("args") with
          | some n, some a => .ok [LogLine.fcall n a]
          | _, _ => .error ("KeyError")
        | _ => .error ("TypeError")
      else .ok []
    match contentPart with
    | .error m => .error m
    | .ok cp =>
      match fcPart with
      | .error m => .error m
      | .ok fp => .ok (head ++ cp ++ fp)
  | _ => .error ("TypeError")

/-- Printing of a whole streamed event sequence: events are consumed in
order, and a raise inside one event aborts the stream (the raw `print(event)`
of the offending event has already happened). -/
def eventsLog : List Json → List LogLine × Option String
  | [] => ([], none)
  | e :: es =>
    match eventLogE e with
    | .error m => ([LogLine.jsonDump e], some m)
    | .ok l =>
      let r := eventsLog es
      (l ++ r.1, r.2)

/-- What one `agent.stream_query(...)` call does: yield a list of streamed
events, or raise with some message (an SDK/network error). -/
inductive QueryResult where
  | events (evs : List Json)
  | raiseErr (msg : String)

/-- A query result that yields events (does not itself raise). -/
def QueryResult.isEvents : QueryResult → Bool
  | .events _ => true
  | .raiseErr _ => false

/-- A query result whose events also print without raising. -/
def QueryResult.cleanEvents : QueryResult → Bool
  | .events evs => (eventsLog evs).2 == none
  | .raiseErr _ => false

/-- Result of the `while True:` loop of `run_remote`: the lines printed inside
the loop and, when the loop was left by an uncaught exception rather than by
the "quit" `break`, that exception's message. -/
structure LoopRun where
  log : List LogLine
  err : Option String

/-- The `while True:` loop of `run_remote` (lines 45-60 of `test_deploy.py`).
`inputs` are the successive console lines (exhausting them models `input()`
raising `EOFError`); `query k` is what the `k`-th `stream_query` call does. -/
def runLoop (query : Nat → QueryResult) : List String → Nat → LoopRun
  | [], _ => { log := [], err := some ("EOFError") }
  | s :: rest, k =>
    if s == "quit" then { log := [], err := none }
    else
      match query k with
      | .raiseErr m => { log := [], err := some m }
      | .events evs =>
        let e := eventsLog evs
        match e.2 with
        | some m => { log := e.1, err := some m }
        | none =>
          let r := runLoop query rest (k + 1)
          { log := e.1 ++ r.log, err := r.err }

/-- A whole run of `run_remote`: everything printed, the number of
`delete_session` calls issued, and how the function ended. -/
structure RemoteRun where
  log : List LogLine
  deletedSessions : Nat
  outcome : Outcome

/-- `run_remote` of `test_deploy.py` (lines 7-62): after the SDK setup and the
session creation (whose SDK calls are taken as given: `session_state` is the
created session's state), run the interactive loop; only when the loop is left
via the "quit" `break` does control reach the `delete_session` call at the end
of the function — an exception raised mid-loop propagates past it. -/
def run_remote (agent_engine_id user_id : String) (session_state : Json)
    (inputs : List String) (query : Nat → QueryResult) : RemoteRun :=
  let intro := [LogLine.text ("Found agent with resource ID: " ++ agent_engine_id),
                LogLine.text ("Created session for user ID: " ++ user_id),
                LogLine.fstr ("Session state: ") session_state,
                LogLine.text ("Type \x27quit\x27 to exit.")]
  let r := runLoop query inputs 0
  match r.err with
  | some m => { log := intro ++ r.log, deletedSessions := 0, outcome := .raised m }
  | none =>
    { log := intro ++ r.log ++ [LogLine.text ("Deleted session for user ID: " ++ user_id)],
      deletedSessions := 1, outcome := .returned }

/-!
Analysis-side definitions (not from the source): hostname extraction from a
URL, the hostname the spec predicts, and the count of set mode combinations.
-/

/-- Characters of a hostname: everything up to the first "/". -/
def takeUntilSlash : List Char → List Char
  | [] => []
  | c :: cs => if c = '/' then [] else c :: takeUntilSlash cs

/-- The hostname of an "https://..." URL: the characters between the scheme
prefix (8 characters) and the next "/". -/
def urlHostname (u : String) : String :=
  String.mk (takeUntilSlash (u.data.drop 8))

/-- The hostname the spec predicts for a configured location: bare for
"global", location-prefixed otherwise. -/
def specHostname (loc : Option String) : String :=
  if loc = some ("global") then "discoveryengine.googleapis.com"
  else pyStr loc ++ "-" ++ "discoveryengine.googleapis.com"

/-- How many of the three mode combinations {link+resource_id, list,
delete+as_agent_id} a flag assignment sets. -/
def comboCount (f : Flags) : Nat :=
  (if f.link && truthy f.resource_id then 1 else 0) +
  (if f.list then 1 else 0) +
  (if f.delete && truthy f.as_agent_id then 1 else 0)

/-!
Concrete configurations used as inputs of witnesses and counterexamples.
-/

/-- A flag assignment with every flag at its default. -/
def flagsNone : Flags :=
  { as_project_id := none, ae_project_id := none, location := none,
    company_name := "Datatonic", list := false, link := false, delete := false,
    resource_id := none, as_agent_id := none }

/-- The environment of the spec's worked example: global location. -/
def envGlobal : Env :=
  { AS_GOOGLE_CLOUD_PROJECT := some ("proj1"), AGENT_SPACE_APP_ID := some ("app1"),
    AGENT_SPACE_LOCATION := some ("global"), GOOGLE_CLOUD_PROJECT := none,
    GOOGLE_CLOUD_LOCATION := none }

/-- The same environment with the AgentSpace location variable unset. -/
def envNoLoc : Env :=
  { AS_GOOGLE_CLOUD_PROJECT := some ("proj1"), AGENT_SPACE_APP_ID := some ("app1"),
    AGENT_SPACE_LOCATION := none, GOOGLE_CLOUD_PROJECT := none,
    GOOGLE_CLOUD_LOCATION := none }

/-- Flags carrying an explicit `--location` override. -/
def flagsLocUS : Flags := { flagsNone with location := some ("us-east1") }

/-- Flags carrying an explicit `--as_project_id` override. -/
def flagsProjOverride : Flags := { flagsNone with as_project_id := some ("over-proj") }

/-- Flags setting both the link combination and the list mode. -/
def flagsLinkAndList : Flags :=
  { flagsNone with link := true, resource_id := some ("re-1"), list := true }

/-- Flags requesting a link without a resource id. -/
def flagsLinkNoRid : Flags := { flagsNone with link := true }

/-- Flags setting both the list mode and the delete combination. -/
def flagsListAndDel : Flags :=
  { flagsNone with list := true, delete := true, as_agent_id := some ("as-1") }

/-!
Helper lemmas.
-/

/-- Two strings with the same character data are equal. -/
theorem strOfData (a b : String) (h : a.data = b.data) : a = b :=
  congrArg String.mk h

/-- `takeUntilSlash` recovers a slash-free chunk placed before a "/". -/
theorem takeUntilSlash_append (h r : List Char) (hh : ('/') ∉ h) :
    takeUntilSlash (h ++ '/' :: r) = h := by
  induction h with
  | nil => simp [takeUntilSlash]
  | cons c cs ih =>
    have hc : c ≠ '/' := fun e => hh (by simp [e])
    have hcs : ('/') ∉ cs := fun m => hh (List.mem_cons_of_mem _ m)
    have step : takeUntilSlash ((c :: cs) ++ '/' :: r) =
        c :: takeUntilSlash (cs ++ '/' :: r) := by
      rw [List.cons_append]
      simp only [takeUntilSlash]
      rw [if_neg hc]
    rw [step, ih hcs]

/-- Hostname extraction on a URL of the shape scheme ++ hostname ++ "/"-path. -/
theorem urlHostname_of_data (u H : String) (rest : List Char)
    (hu : u.data = "https://".data ++ (H.data ++ ('/') :: rest))
    (hH : ('/') ∉ H.data) : urlHostname u = H := by
  unfold urlHostname
  rw [hu, show (8 : Nat) = "https://".data.length from rfl, List.drop_left,
    takeUntilSlash_append H.data rest hH]

/-- The URL built by `discovery_engine_url`, written with its hostname factored
out as `specHostname`. -/
theorem discovery_engine_url_eq (f : Flags) (e : Env) :
    discovery_engine_url f e =
      "https://" ++ specHostname e.AGENT_SPACE_LOCATION ++ "/v1alpha/projects/" ++
        pyStr (as_project_resolved f e) ++ "/locations/" ++
        pyStr e.AGENT_SPACE_LOCATION ++
        "/collections/default_collection/engines/" ++
        pyStr e.AGENT_SPACE_APP_ID ++ "/assistants/default_assistant/agents" := by
  simp only [discovery_engine_url, specHostname]
  by_cases hg : e.AGENT_SPACE_LOCATION = some ("global")
  · rw [if_neg (fun hne => hne hg), if_pos hg]
  · rw [if_pos hg, if_neg hg]

/-- The hostname of the constructed URL is exactly `specHostname`, provided
the location value itself contains no "/". -/
theorem urlHostname_discovery (f : Flags) (e : Env)
    (hs : ('/') ∉ (pyStr e.AGENT_SPACE_LOCATION).data) :
    urlHostname (discovery_engine_url f e) = specHostname e.AGENT_SPACE_LOCATION := by
  have hH : ('/') ∉ (specHostname e.AGENT_SPACE_LOCATION).data := by
    unfold specHostname
    by_cases hg : e.AGENT_SPACE_LOCATION = some ("global")
    · rw [if_pos hg]; decide
    · rw [if_neg hg]
      intro hmem
      rw [String.data_append, String.data_append] at hmem
      rcases List.mem_append.mp hmem with h12 | h3
      · rcases List.mem_append.mp h12 with h1 | h2
        · exact hs h1
        · exact absurd h2 (by decide)
      · exact absurd h3 (by decide)
  apply urlHostname_of_data _ _
    ("v1alpha/projects/".data ++ ((pyStr (as_project_resolved f e)).data ++
      ("/locations/".data ++ ((pyStr e.AGENT_SPACE_LOCATION).data ++
        ("/collections/default_collection/engines/".data ++
          ((pyStr e.AGENT_SPACE_APP_ID).data ++
            "/assistants/default_assistant/agents".data)))))) _ hH
  rw [discovery_engine_url_eq]
  simp only [String.data_append, List.append_assoc]
  rfl

/-!
The claims.
-/

/-- C6: with location "global", project "proj1" and application id "app1",
the endpoint-construction function returns exactly the spec's example URL. -/
theorem C6_example_url :
    discovery_engine_url flagsNone envGlobal =
      "https://discoveryengine.googleapis.com/v1alpha/projects/proj1/locations/global/collections/default_collection/engines/app1/assistants/default_assistant/agents" :=
  rfl

/-- C9: with the location environment variable unset (and no override
mechanism existing for it), endpoint construction does not fail: the `None`
value is rendered literally, giving the "None-" hostname and a
"locations/None" path segment. -/
theorem C9_missing_location (f : Flags) (e : Env)
    (h : e.AGENT_SPACE_LOCATION = none) :
    discovery_engine_url f e =
      "https://None-discoveryengine.googleapis.com/v1alpha/projects/" ++
        pyStr (as_project_resolved f e) ++
        "/locations/None/collections/default_collection/engines/" ++
        pyStr e.AGENT_SPACE_APP_ID ++ "/assistants/default_assistant/agents" := by
  rw [discovery_engine_url_eq, h]
  apply strOfData
  simp only [specHostname, pyStr, String.data_append, List.append_assoc]
  rfl

/-- C9 witness: the theorem evaluated at a concrete environment with the
location variable unset. -/
theorem C9_missing_location_witness :
    envNoLoc.AGENT_SPACE_LOCATION = none ∧
    discovery_engine_url flagsNone envNoLoc =
      "https://None-discoveryengine.googleapis.com/v1alpha/projects/" ++
        pyStr (as_project_resolved flagsNone envNoLoc) ++
        "/locations/None/collections/default_collection/engines/" ++
        pyStr envNoLoc.AGENT_SPACE_APP_ID ++ "/assistants/default_assistant/agents" :=
  ⟨rfl, C9_missing_location flagsNone envNoLoc rfl⟩

/-- C1: endpoint construction is a pure function of the resolved (project,
app, location) triple — equal resolved inputs give the identical URL string —
and the hostname of the result is the bare service hostname exactly when the
location value is "global", every other location value giving a
location-and-hyphen prefixed hostname (stated for location values that do not
themselves contain a "/", so that "the hostname" of the URL is well defined). -/
theorem C1_pure_deterministic_hostname (f1 f2 : Flags) (e1 e2 : Env)
    (hp : as_project_resolved f1 e1 = as_project_resolved f2 e2)
    (ha : e1.AGENT_SPACE_APP_ID = e2.AGENT_SPACE_APP_ID)
    (hl : e1.AGENT_SPACE_LOCATION = e2.AGENT_SPACE_LOCATION)
    (hs : ('/') ∉ (pyStr e1.AGENT_SPACE_LOCATION).data) :
    discovery_engine_url f1 e1 = discovery_engine_url f2 e2 ∧
    urlHostname (discovery_engine_url f1 e1) = specHostname e1.AGENT_SPACE_LOCATION ∧
    (urlHostname (discovery_engine_url f1 e1) = "discoveryengine.googleapis.com" ↔
      e1.AGENT_SPACE_LOCATION = some ("global")) := by
  refine ⟨?_, urlHostname_discovery f1 e1 hs, ?_⟩
  · rw [discovery_engine_url_eq, discovery_engine_url_eq, hp, ha, hl]
  · rw [urlHostname_discovery f1 e1 hs]
    constructor
    · intro hb
      by_contra hg
      rw [specHostname, if_neg hg] at hb
      have hlen := congrArg String.length hb
      rw [String.length_append, String.length_append] at hlen
      rw [show ("-" : String).length = 1 from rfl,
        show ("discoveryengine.googleapis.com" : String).length = 30 from rfl] at hlen
      omega
    · intro hg
      rw [specHostname, if_pos hg]

/-- C1 witness: the theorem applied at the spec's worked example. -/
theorem C1_pure_deterministic_hostname_witness :
    ('/') ∉ (pyStr envGlobal.AGENT_SPACE_LOCATION).data ∧
    urlHostname (discovery_engine_url flagsNone envGlobal) =
      specHostname envGlobal.AGENT_SPACE_LOCATION ∧
    (urlHostname (discovery_engine_url flagsNone envGlobal) = "discoveryengine.googleapis.com" ↔
      envGlobal.AGENT_SPACE_LOCATION = some ("global")) :=
  ⟨by decide,
   (C1_pure_deterministic_hostname flagsNone flagsNone envGlobal envGlobal rfl rfl rfl
      (by decide)).2⟩

/-- C5 counterexample: the `--location` flag override is ignored by endpoint
construction — with the environment location "global" and the flag location
"us-east1" the function still returns the bare-hostname "global" URL and the
very same string it returns with no override at all, refuting flag-first
resolution for the location input. -/
theorem C5_flag_override_cex :
    flagsLocUS.location = some ("us-east1") ∧
    discovery_engine_url flagsLocUS envGlobal = discovery_engine_url flagsNone envGlobal ∧
    discovery_engine_url flagsLocUS envGlobal =
      "https://discoveryengine.googleapis.com/v1alpha/projects/proj1/locations/global/collections/default_collection/engines/app1/assistants/default_assistant/agents" :=
  ⟨rfl, rfl, rfl⟩

/-- C5 amended: only the project identifier is resolved flag-first with
environment fallback; the application and location identifiers are read from
their environment variables alone, so the URL depends only on the environment
and the resolved project. -/
theorem C5_amended_resolution (f f2 : Flags) (e : Env) :
    (truthy f.as_project_id = true → as_project_resolved f e = f.as_project_id) ∧
    (truthy f.as_project_id = false →
      as_project_resolved f e = e.AS_GOOGLE_CLOUD_PROJECT) ∧
    (as_project_resolved f e = as_project_resolved f2 e →
      discovery_engine_url f e = discovery_engine_url f2 e) := by
  refine ⟨?_, ?_, ?_⟩
  · intro h; simp [as_project_resolved, h]
  · intro h; simp [as_project_resolved, h]
  · intro h; rw [discovery_engine_url_eq, discovery_engine_url_eq, h]

/-- C5 amended witness: flag-first project resolution at a concrete override,
and flag-insensitivity of the URL for a concrete location override. -/
theorem C5_amended_resolution_witness :
    as_project_resolved flagsProjOverride envGlobal = flagsProjOverride.as_project_id ∧
    discovery_engine_url flagsLocUS envGlobal = discovery_engine_url flagsNone envGlobal :=
  ⟨(C5_amended_resolution flagsProjOverride flagsNone envGlobal).1 (by decide),
   (C5_amended_resolution flagsLocUS flagsNone envGlobal).2.2 (by decide)⟩

/-- A connection-error log line never equals an HTTP-status-error log line,
whatever the two underlying error messages are. -/
theorem connLine_ne_httpLine (m r : String) :
    ("Connection error occurred: " ++ m) ≠ ("HTTP error occurred: " ++ r) := by
  intro h
  have hd := congrArg (fun s => s.data.head?) h
  simp only [String.data_append] at hd
  simp at hd

/-- C3: for each directory action (link, list, delete) and each failing fate
of its single HTTP call — HTTP status error, connection error, timeout, other
request error — the error is caught inside the action: the function returns
normally (it neither raises nor exits), its log is exactly the category line
(plus the raw response body for an HTTP status error), and the connection
category line differs from the HTTP-status category line for any messages. -/
theorem C3_transport_errors_caught (f : Flags) (e : Env) (rid aid : String)
    (t : Option String) (ht : truthy t = true) (m r m2 : String) :
    ((link_agent_to_agentspace f e rid (.ok t) (.httpError m r)).outcome = .returned ∧
     (link_agent_to_agentspace f e rid (.ok t) (.httpError m r)).log =
       [.text ("HTTP error occurred: " ++ m), .text ("Response Content: " ++ r)]) ∧
    ((link_agent_to_agentspace f e rid (.ok t) (.connError m)).outcome = .returned ∧
     (link_agent_to_agentspace f e rid (.ok t) (.connError m)).log =
       [.text ("Connection error occurred: " ++ m)]) ∧
    ((link_agent_to_agentspace f e rid (.ok t) (.timeoutError m)).outcome = .returned ∧
     (link_agent_to_agentspace f e rid (.ok t) (.timeoutError m)).log =
       [.text ("Timeout error occurred: " ++ m)]) ∧
    ((link_agent_to_agentspace f e rid (.ok t) (.otherError m)).outcome = .returned ∧
     (link_agent_to_agentspace f e rid (.ok t) (.otherError m)).log =
       [.text ("An error occurred: " ++ m)]) ∧
    ((list_as_agents f e (.ok t) (.httpError m r)).outcome = .returned ∧
     (list_as_agents f e (.ok t) (.httpError m r)).log =
       [.text ("HTTP error occurred: " ++ m), .text ("Response Content: " ++ r)]) ∧
    ((list_as_agents f e (.ok t) (.connError m)).outcome = .returned ∧
     (list_as_agents f e (.ok t) (.connError m)).log =
       [.text ("Connection error occurred: " ++ m)]) ∧
    ((list_as_agents f e (.ok t) (.timeoutError m)).outcome = .returned ∧
     (list_as_agents f e (.ok t) (.timeoutError m)).log =
       [.text ("Timeout error occurred: " ++ m)]) ∧
    ((list_as_agents f e (.ok t) (.otherError m)).outcome = .returned ∧
     (list_as_agents f e (.ok t) (.otherError m)).log =
       [.text ("An error occurred: " ++ m)]) ∧
    ((delete_as_agent f e aid (.ok t) (.httpError m r)).outcome = .returned ∧
     (delete_as_agent f e aid (.ok t) (.httpError m r)).log =
       [.text ("HTTP error occurred: " ++ m), .text ("Response Content: " ++ r)]) ∧
    ((delete_as_agent f e aid (.ok t) (.connError m)).outcome = .returned ∧
     (delete_as_agent f e aid (.ok t) (.connError m)).log =
       [.text ("Connection error occurred: " ++ m)]) ∧
    ((delete_as_agent f e aid (.ok t) (.timeoutError m)).outcome = .returned ∧
     (delete_as_agent f e aid (.ok t) (.timeoutError m)).log =
       [.text ("Timeout error occurred: " ++ m)]) ∧
    ((delete_as_agent f e aid (.ok t) (.otherError m)).outcome = .returned ∧
     (delete_as_agent f e aid (.ok t) (.otherError m)).log =
       [.text ("An error occurred: " ++ m)]) ∧
    ("Connection error occurred: " ++ m) ≠ ("HTTP error occurred: " ++ m2) := by
  refine ⟨?_, ?_, ?_, ?_, ?_, ?_, ?_, ?_, ?_, ?_, ?_, ?_, connLine_ne_httpLine m m2⟩ <;>
    exact ⟨by simp [link_agent_to_agentspace, list_as_agents, delete_as_agent,
        get_gcloud_access_token, ht],
      by simp [link_agent_to_agentspace, list_as_agents, delete_as_agent,
        get_gcloud_access_token, ht]⟩

/-- C3 witness: the connection-error conjunct of the theorem evaluated at a
concrete configuration and token. -/
theorem C3_transport_errors_caught_witness :
    truthy (some ("tok")) = true ∧
    (link_agent_to_agentspace flagsNone envGlobal ("re-1") (.ok (some ("tok")))
        (.connError ("boom"))).outcome = .returned ∧
    (link_agent_to_agentspace flagsNone envGlobal ("re-1") (.ok (some ("tok")))
        (.connError ("boom"))).log = [.text ("Connection error occurred: " ++ "boom")] :=
  ⟨rfl,
   (C3_transport_errors_caught flagsNone envGlobal ("re-1") ("as-1") (some ("tok")) rfl
      ("boom") ("resp") ("other")).2.1.1,
   (C3_transport_errors_caught flagsNone envGlobal ("re-1") ("as-1") (some ("tok")) rfl
      ("boom") ("resp") ("other")).2.1.2⟩

/-- C7: the single POST of the link operation carries exactly the three
headers Authorization (Bearer token), Content-Type (application/json) and
X-Goog-User-Project (the configured AgentSpace project), and its JSON payload
has exactly the shape displayName / description / adk_agent_definition
{ tool_settings { tool_description }, provisioned_reasoning_engine
{ reasoning_engine } }, with the fixed display name "weather-agent-1" and the
reasoning-engine resource path of the target engine. -/
theorem C7_link_request_shape (f : Flags) (e : Env) (rid : String)
    (t : Option String) (ht : truthy t = true) (http : HttpOutcome) :
    (link_agent_to_agentspace f e rid (.ok t) http).effects =
      [.credentialRefresh,
       .httpPost (discovery_engine_url f e)
         [("Authorization", some ("Bearer " ++ pyStr t)),
          ("Content-Type", some ("application/json")),
          ("X-Goog-User-Project", e.AS_GOOGLE_CLOUD_PROJECT)]
         (.obj
           [("displayName", .str ("weather-agent-1")),
            ("description", .str ("Weather agent that provides weather information for " ++
               f.company_name ++ ".")),
            ("adk_agent_definition", .obj
              [("tool_settings", .obj
                [("tool_description",
                  .str ("This agent provides weather information for a given location."))]),
               ("provisioned_reasoning_engine", .obj
                 [("reasoning_engine",
                   .str ("projects/" ++ pyStr e.GOOGLE_CLOUD_PROJECT ++ "/locations/" ++
                     pyStr (if truthy f.location then f.location else e.GOOGLE_CLOUD_LOCATION) ++
                     "/reasoningEngines/" ++ rid))])])])] := by
  cases http <;>
    simp [link_agent_to_agentspace, get_gcloud_access_token, ht, mkHeaders, USE_CASE_NAME]

/-- C7 witness: the theorem applied at a concrete configuration and token. -/
theorem C7_link_request_shape_witness :
    truthy (some ("tok")) = true ∧
    (link_agent_to_agentspace flagsNone envGlobal ("re-1") (.ok (some ("tok")))
        (.connError ("x"))).effects =
      [.credentialRefresh,
       .httpPost (discovery_engine_url flagsNone envGlobal)
         [("Authorization", some ("Bearer " ++ pyStr (some ("tok")))),
          ("Content-Type", some ("application/json")),
          ("X-Goog-User-Project", envGlobal.AS_GOOGLE_CLOUD_PROJECT)]
         (.obj
           [("displayName", .str ("weather-agent-1")),
            ("description", .str ("Weather agent that provides weather information for " ++
               flagsNone.company_name ++ ".")),
            ("adk_agent_definition", .obj
              [("tool_settings", .obj
                [("tool_description",
                  .str ("This agent provides weather information for a given location."))]),
               ("provisioned_reasoning_engine", .obj
                 [("reasoning_engine",
                   .str ("projects/" ++ pyStr envGlobal.GOOGLE_CLOUD_PROJECT ++ "/locations/" ++
                     pyStr (if truthy flagsNone.location then flagsNone.location
                       else envGlobal.GOOGLE_CLOUD_LOCATION) ++
                     "/reasoningEngines/" ++ "re-1"))])])])] :=
  ⟨rfl, C7_link_request_shape flagsNone envGlobal ("re-1") (some ("tok")) rfl (.connError ("x"))⟩

/-- C8: on any credential-resolution failure every directory action prints
the error and the remediation guidance naming the cloud login command, makes
no attempt other than the single credential refresh (no retry), issues no
HTTP call, and terminates the process with the non-zero exit status 1. -/
theorem C8_credential_failure_fatal (f : Flags) (e : Env) (rid aid msg : String)
    (http : HttpOutcome) :
    ((link_agent_to_agentspace f e rid (.err msg) http).outcome = .exited 1 ∧
     (link_agent_to_agentspace f e rid (.err msg) http).effects = [.credentialRefresh] ∧
     (link_agent_to_agentspace f e rid (.err msg) http).log =
       [.text ("Error getting access token: " ++ msg),
        .text ("Please ensure you are authenticated with \x27gcloud auth application-default login\x27")]) ∧
    ((list_as_agents f e (.err msg) http).outcome = .exited 1 ∧
     (list_as_agents f e (.err msg) http).effects = [.credentialRefresh] ∧
     (list_as_agents f e (.err msg) http).log =
       [.text ("Error getting access token: " ++ msg),
        .text ("Please ensure you are authenticated with \x27gcloud auth application-default login\x27")]) ∧
    ((delete_as_agent f e aid (.err msg) http).outcome = .exited 1 ∧
     (delete_as_agent f e aid (.err msg) http).effects = [.credentialRefresh] ∧
     (delete_as_agent f e aid (.err msg) http).log =
       [.text ("Error getting access token: " ++ msg),
        .text ("Please ensure you are authenticated with \x27gcloud auth application-default login\x27")]) := by
  refine ⟨⟨?_, ?_, ?_⟩, ⟨?_, ?_, ?_⟩, ⟨?_, ?_, ?_⟩⟩ <;>
    simp [link_agent_to_agentspace, list_as_agents, delete_as_agent, get_gcloud_access_token]

/-- The link action never raises `main`'s configuration `ValueError`. -/
theorem link_no_config_raise (f : Flags) (e : Env) (rid : String)
    (cred : CredResult) (http : HttpOutcome) :
    (link_agent_to_agentspace f e rid cred http).outcome ≠ .raised mainErrMsg := by
  cases cred with
  | err m =>
    simp [link_agent_to_agentspace, get_gcloud_access_token]
  | ok t =>
    cases ht : truthy t <;> cases http <;>
      simp [link_agent_to_agentspace, get_gcloud_access_token, ht, mainErrMsg]

/-- The list action never raises `main`'s configuration `ValueError`. -/
theorem list_no_config_raise (f : Flags) (e : Env)
    (cred : CredResult) (http : HttpOutcome) :
    (list_as_agents f e cred http).outcome ≠ .raised mainErrMsg := by
  cases cred with
  | err m =>
    simp [list_as_agents, get_gcloud_access_token]
  | ok t =>
    cases ht : truthy t <;> cases http <;>
      simp [list_as_agents, get_gcloud_access_token, ht, mainErrMsg]

/-- C4 counterexample: with the link combination and the list mode both set —
so that not exactly one combination is set — `main` raises no configuration
error and performs a network call, refuting the claim's "unless exactly one". -/
theorem C4_exactly_one_cex :
    comboCount flagsLinkAndList = 2 ∧
    (main flagsLinkAndList envGlobal (.ok (some ("tok"))) (.success (.obj []))).outcome =
      .returned ∧
    ((main flagsLinkAndList envGlobal (.ok (some ("tok"))) (.success (.obj []))).effects.any
      isHttpCall) = true :=
  ⟨rfl, rfl, rfl⟩

/-- C4 amended: when none of the combinations {link with resource_id, list,
delete with as_agent_id} is set, `main` raises the configuration `ValueError`
and performs zero network calls (and zero effects of any kind); in particular
a link without resource_id, or a delete without as_agent_id, with no other
mode set, is rejected before any network call. -/
theorem C4_amended_config_error (f : Flags) (e : Env)
    (cred : CredResult) (http : HttpOutcome)
    (h1 : (f.link && truthy f.resource_id) = false)
    (h2 : f.list = false)
    (h3 : (f.delete && truthy f.as_agent_id) = false) :
    main f e cred http = { log := [], effects := [], outcome := .raised mainErrMsg } := by
  simp [main, h1, h2, h3]

/-- C4 amended witness: a link requested without a resource id is rejected
with the configuration error and no effects. -/
theorem C4_amended_config_error_witness :
    (flagsLinkNoRid.link && truthy flagsLinkNoRid.resource_id) = false ∧
    flagsLinkNoRid.list = false ∧
    (flagsLinkNoRid.delete && truthy flagsLinkNoRid.as_agent_id) = false ∧
    main flagsLinkNoRid envGlobal (.ok (some ("tok"))) (.success (.obj [])) =
      { log := [], effects := [], outcome := .raised mainErrMsg } :=
  ⟨rfl, rfl, rfl,
   C4_amended_config_error flagsLinkNoRid envGlobal (.ok (some ("tok"))) (.success (.obj []))
     rfl rfl rfl⟩

/-- C10: when more than one mode combination is set, `main` raises no
configuration error and executes exactly the single action selected by the
fixed precedence link over list over delete (with at least two combinations
set, that is the link action when its combination holds, else the list
action). -/
theorem C10_overlap_precedence (f : Flags) (e : Env)
    (cred : CredResult) (http : HttpOutcome) (h : 2 ≤ comboCount f) :
    (main f e cred http =
      if f.link && truthy f.resource_id then
        link_agent_to_agentspace f e (pyStr f.resource_id) cred http
      else list_as_agents f e cred http) ∧
    (main f e cred http).outcome ≠ .raised mainErrMsg := by
  by_cases h1 : (f.link && truthy f.resource_id) = true
  · constructor
    · rw [if_pos h1]
      simp [main, h1]
    · simp only [main, if_pos h1]
      exact link_no_config_raise f e (pyStr f.resource_id) cred http
  · have h1f : (f.link && truthy f.resource_id) = false := by
      cases hb : (f.link && truthy f.resource_id)
      · rfl
      · exact absurd hb h1
    have h2 : f.list = true := by
      by_contra h2f
      have h2ff : f.list = false := by
        cases hb : f.list
        · rfl
        · exact absurd hb h2f
      rw [comboCount, h1f, h2ff] at h
      simp only [Bool.false_eq_true, if_false] at h
      split at h <;> omega
    constructor
    · rw [if_neg h1]
      simp [main, h1f, h2]
    · simp only [main, h1f, Bool.false_eq_true, if_false, h2, if_true]
      exact list_no_config_raise f e cred http

/-- C10 witness: the theorem applied with the list mode and the delete
combination both set. -/
theorem C10_overlap_precedence_witness :
    2 ≤ comboCount flagsListAndDel ∧
    (main flagsListAndDel envGlobal (.ok (some ("tok"))) (.success (.obj [])) =
      if flagsListAndDel.link && truthy flagsListAndDel.resource_id then
        link_agent_to_agentspace flagsListAndDel envGlobal (pyStr flagsListAndDel.resource_id)
          (.ok (some ("tok"))) (.success (.obj []))
      else list_as_agents flagsListAndDel envGlobal (.ok (some ("tok"))) (.success (.obj []))) ∧
    (main flagsListAndDel envGlobal (.ok (some ("tok"))) (.success (.obj []))).outcome ≠
      .raised mainErrMsg :=
  ⟨by decide,
   (C10_overlap_precedence flagsListAndDel envGlobal (.ok (some ("tok"))) (.success (.obj []))
      (by decide)).1,
   (C10_overlap_precedence flagsListAndDel envGlobal (.ok (some ("tok"))) (.success (.obj []))
      (by decide)).2⟩

/-- If every query before the "quit" input yields a cleanly printed event
stream, the loop reaches the "quit" input and leaves without an error. -/
theorem runLoop_reaches_quit (query : Nat → QueryResult) (rest : List String) :
    ∀ (pre : List String) (k : Nat),
      (∀ i, i < pre.length → (query (k + i)).cleanEvents = true) →
      ("quit") ∉ pre →
      (runLoop query (pre ++ ("quit") :: rest) k).err = none := by
  intro pre
  induction pre with
  | nil =>
    intro k _ _
    simp [runLoop]
  | cons s tail ih =>
    intro k hq hnq
    have hsne : s ≠ "quit" := fun e => hnq (e ▸ List.mem_cons_self s tail)
    have hs : (s == "quit") = false := beq_eq_false_iff_ne.mpr hsne
    have h0 := hq 0 (by simp)
    rw [List.cons_append]
    cases hqk : query k with
    | raiseErr m =>
      rw [Nat.add_zero, hqk] at h0
      simp [QueryResult.cleanEvents] at h0
    | events evs =>
      have hclean : (eventsLog evs).2 = none := by
        rw [Nat.add_zero, hqk] at h0
        simpa [QueryResult.cleanEvents] using h0
      have htail : ∀ i, i < tail.length → (query (k + 1 + i)).cleanEvents = true := by
        intro i hi
        have heq : k + 1 + i = k + (i + 1) := by omega
        rw [heq]
        exact hq (i + 1) (by simpa using Nat.succ_lt_succ hi)
      have hntail : ("quit") ∉ tail := fun m => hnq (List.mem_cons_of_mem _ m)
      simp only [runLoop, hs, Bool.false_eq_true, if_false, hqk, hclean]
      exact ih (k + 1) htail hntail

/-- C2 counterexample: an error raised by the first query propagates out of
`run_remote` and the session-delete call is never issued — the claim's
"including when an error is raised mid-loop" fails on the code, which has no
try/finally around the loop. -/
theorem C2_error_skips_teardown_cex :
    (run_remote ("agent-1") ("u1") .null [("hello")]
        (fun _ => .raiseErr ("network down"))).deletedSessions = 0 ∧
    (run_remote ("agent-1") ("u1") .null [("hello")]
        (fun _ => .raiseErr ("network down"))).outcome = .raised ("network down") :=
  ⟨rfl, rfl⟩

/-- C2 amended: reading the literal input "quit" terminates the loop, and on
that normal loop exit the session-delete call is issued exactly once before
the function returns, regardless of how many prior query/response exchanges
occurred (provided those prior queries returned cleanly printed event
streams); an error raised mid-loop instead propagates and skips the delete. -/
theorem C2_quit_teardown_once (a u : String) (st : Json) (pre rest : List String)
    (query : Nat → QueryResult)
    (hq : ∀ i, i < pre.length → (query i).cleanEvents = true)
    (hnq : ("quit") ∉ pre) :
    (run_remote a u st (pre ++ ("quit") :: rest) query).deletedSessions = 1 ∧
    (run_remote a u st (pre ++ ("quit") :: rest) query).outcome = .returned := by
  have h := runLoop_reaches_quit query rest pre 0
    (by intro i hi; simpa using hq i hi) hnq
  constructor <;> simp [run_remote, h]

/-- C2 amended witness: one successful exchange followed by "quit" deletes
the session exactly once. -/
theorem C2_quit_teardown_once_witness :
    (∀ i, i < ([("hi")] : List String).length →
      ((fun _ => QueryResult.events []) i).cleanEvents = true) ∧
    ("quit") ∉ ([("hi")] : List String) ∧
    (run_remote ("agent-1") ("u1") .null ([("hi")] ++ ("quit") :: [])
        (fun _ => QueryResult.events [])).deletedSessions = 1 :=
  ⟨by decide, by decide,
   (C2_quit_teardown_once ("agent-1") ("u1") .null [("hi")] []
      (fun _ => QueryResult.events []) (by decide) (by decide)).1⟩

end ASDeploy
